import Mathlib

/-!
# Abeka Junction dashboard: realtime session and sliding window

A shallow embedding of the state logic of `src/frontend/src/Dashboard.jsx`:
the React state of the `Dashboard` component, the WebSocket message handler,
the three control-API handlers, the channel effect and `calculateStatistics`.

Modelling conventions

* JavaScript values are the inductive `JsVal`; numbers are exact rationals
  (the IEEE-754 rounding of JavaScript numbers is outside the model).
* An `await`ed control-API call is an input of the handler: the handler takes
  the answer the API gives and applies its state updates in program order.
* An exception thrown inside a handler ends the handler; the state updates it
  queued before the throw stay queued, as in React.
-/

namespace Dashboard

/-! ## JavaScript values -/

/-- JavaScript values as they come out of `JSON.parse` or a property read. -/
inductive JsVal where
  | undefined
  | null
  | bool (b : Bool)
  | num (q : ℚ)
  | str (s : String)
  | arr (items : List JsVal)
  | obj (fields : List (String × JsVal))

namespace JsVal

/-- Property read `v.k` of a data property such as `type`, `payload`,
`prediction` or `baud_rate` (not an index, `length` or a method of the
prototype): `none` is the TypeError thrown on `null` and `undefined`; an
object gives its own field or `undefined`; any other value has no such
property and gives `undefined`. -/
def prop (v : JsVal) (k : String) : Option JsVal :=
  match v with
  | undefined => none
  | null => none
  | obj fields => some ((fields.lookup k).getD undefined)
  | _ => some undefined

/-- Strict equality with a string literal, `v === 'lit'`. -/
def strictEqStr (v : JsVal) (lit : String) : Bool :=
  match v with
  | str s => s == lit
  | _ => false

/-- JavaScript truthiness, as tested by `if (v)`, `!v` and `v || w`. -/
def truthy (v : JsVal) : Bool :=
  match v with
  | undefined => false
  | null => false
  | bool b => b
  | num q => decide (q ≠ 0)
  | str s => decide (s ≠ "")
  | arr _ => true
  | obj _ => true

/-- The own enumerable properties copied by an object spread `...v`: the
fields of an object, the indexed elements of an array or string, nothing for
`null`, `undefined`, booleans and numbers. -/
def ownFields (v : JsVal) : List (String × JsVal) :=
  match v with
  | obj fields => fields
  | arr items => items.enum.map (fun p => (toString p.1, p.2))
  | str s => s.toList.enum.map (fun p => (toString p.1, str (String.singleton p.2)))
  | _ => []

end JsVal

/-- Assignment of one key in an object literal after a spread: an existing
key keeps its place and takes the new value, a new key goes last. -/
def setField (fields : List (String × JsVal)) (k : String) (v : JsVal) :
    List (String × JsVal) :=
  if fields.any (fun p => p.1 == k) then
    fields.map (fun p => if p.1 == k then (k, v) else p)
  else fields ++ [(k, v)]

/-- The array method `xs.slice(-k)`: the last `k` elements, or all of `xs`
when it has fewer. -/
def sliceLast {α : Type} (k : Nat) (xs : List α) : List α :=
  xs.drop (xs.length - k)

/-! ## Component state -/

/-- The state of the `Dashboard` component that the session logic reads and
writes: the `useState` cells, the sockets created so far (`true` for one that
has not been closed), `wsRef.current` as an index into them, the value of
`isConnected` the channel effect last ran with, and whether the component is
still mounted. -/
structure State where
  selectedPort : String
  baudRate : ℚ
  isConnected : Bool
  data : List JsVal
  status : JsVal
  loading : Bool
  error : JsVal
  prediction : JsVal
  sockets : List Bool
  wsRef : Option Nat
  effectDeps : Bool
  mounted : Bool

/-- The state after the first render and mount: the `useState` initial
values, no socket, and the channel effect run once with `isConnected` false. -/
def initialState : State where
  selectedPort := ""
  baudRate := 115200
  isConnected := false
  data := []
  status := JsVal.null
  loading := false
  error := JsVal.str ""
  prediction := JsVal.null
  sockets := []
  wsRef := none
  effectDeps := false
  mounted := true

/-! ## The realtime message handler -/

/-- The handler `wsRef.current.onmessage`, given the outcome of
`JSON.parse(event.data)` (`none` when it throws a SyntaxError). -/
def onmessage (s : State) (parsed : Option JsVal) : State :=
  match parsed with
  | none => s
  | some message =>
    match message.prop "type" with
    | none => s
    | some ty =>
      if ty.strictEqStr "data" then
        match message.prop "payload" with
        | none => s
        | some payload =>
          let s1 := { s with data := sliceLast 100 (s.data ++ [payload]) }
          match payload.prop "prediction" with
          | none => s1
          | some p => if p.truthy then { s1 with prediction := p } else s1
      else if ty.strictEqStr "status" then
        match message.prop "payload" with
        | none => s
        | some payload => { s with status := payload }
      else s

/-- A parsed message whose tag is `"data"`: `message.type === 'data'` holds. -/
def isDataMessage (message : JsVal) : Bool :=
  match message.prop "type" with
  | some ty => ty.strictEqStr "data"
  | none => false

/-- The value of `message.payload` for a message that is not `null`. -/
def payloadOf (message : JsVal) : JsVal :=
  (message.prop "payload").getD JsVal.undefined

/-- Handling a sequence of parsed messages in arrival order. -/
def ingest (s : State) (messages : List JsVal) : State :=
  messages.foldl (fun st m => onmessage st (some m)) s

/-! ## The control API handlers -/

/-- A request to the control API (`axios.post`), with its query parameters. -/
inductive Request where
  | connect (port : String) (baud_rate : ℚ)
  | disconnect
  | baudRate (new_baud_rate : ℚ)

/-- How an `axios.post` call settles: resolved with `response.data`, or
rejected with `err.response?.data?.detail` (`undefined` when the error
carries none). -/
inductive ApiResult where
  | ok (data : JsVal)
  | fail (detail : JsVal)

/-- What a handler leaves behind: the component state and the requests it
sent to the control API, in order. -/
structure Outcome where
  state : State
  requests : List Request

/-- The handler `handleConnect`; `resp` is how the connect request settles
when one is sent. -/
def handleConnect (s : State) (resp : ApiResult) : Outcome :=
  let s1 := { s with loading := true, error := JsVal.str "" }
  if !(JsVal.str s.selectedPort).truthy then
    { state := { s1 with error := JsVal.str "Please select a port", loading := false }
      requests := [] }
  else
    let req := Request.connect s.selectedPort s.baudRate
    match resp with
    | ApiResult.ok data =>
      { state := { s1 with isConnected := true, status := data, loading := false }
        requests := [req] }
    | ApiResult.fail detail =>
      { state := { s1 with
          error := if detail.truthy then detail else JsVal.str "Failed to connect"
          loading := false }
        requests := [req] }

/-- The handler `handleDisconnect`; `resp` is how the disconnect request
settles. -/
def handleDisconnect (s : State) (resp : ApiResult) : Outcome :=
  let s1 := { s with loading := true, error := JsVal.str "" }
  match resp with
  | ApiResult.ok _ =>
    { state := { s1 with isConnected := false, data := [], status := JsVal.null,
                         loading := false }
      requests := [Request.disconnect] }
  | ApiResult.fail _ =>
    { state := { s1 with error := JsVal.str "Failed to disconnect", loading := false }
      requests := [Request.disconnect] }

/-- The handler `handleBaudRateChange`; `resp` is how the rate-change request
settles. On success the new status is the object literal
`{ ...prev, baud_rate: newBaudRate }`. -/
def handleBaudRateChange (s : State) (newBaudRate : ℚ) (resp : ApiResult) : Outcome :=
  let s1 := { s with loading := true, error := JsVal.str "" }
  match resp with
  | ApiResult.ok _ =>
    { state := { s1 with
        baudRate := newBaudRate
        status := JsVal.obj (setField s1.status.ownFields "baud_rate" (JsVal.num newBaudRate))
        loading := false }
      requests := [Request.baudRate newBaudRate] }
  | ApiResult.fail _ =>
    { state := { s1 with error := JsVal.str "Failed to change baud rate", loading := false }
      requests := [Request.baudRate newBaudRate] }

/-! ## The channel effect -/

/-- The function `connectWebSocket`: a new socket is created and stored in
`wsRef.current`. -/
def connectWebSocket (s : State) : State :=
  { s with sockets := s.sockets ++ [true], wsRef := some s.sockets.length }

/-- The cleanup of the channel effect: `wsRef.current.close()` when
`wsRef.current` is set. -/
def channelCleanup (s : State) : State :=
  match s.wsRef with
  | some i => { s with sockets := s.sockets.set i false }
  | none => s

/-- The body of the channel effect: `if (isConnected) connectWebSocket()`. -/
def channelEffect (s : State) : State :=
  if s.isConnected then connectWebSocket s else s

/-- React running `useEffect(..., [isConnected])` after a render: nothing when
the dependency is unchanged, otherwise the previous cleanup and then the
body. -/
def flushEffect (s : State) : State :=
  if s.isConnected = s.effectDeps then s
  else { channelEffect (channelCleanup s) with effectDeps := s.isConnected }

/-- Component teardown: the cleanup of the channel effect runs and the
component is gone. -/
def unmount (s : State) : State :=
  { channelCleanup s with mounted := false }

/-- The number of sockets that are open (created and not closed). -/
def openChannels (s : State) : Nat :=
  s.sockets.count true

/-! ## The session state machine -/

/-- The events of a session: the port selector, a quick baud-rate button, the
three control-API handlers with the way their request settles, a message
arriving on a socket, React flushing the channel effect, and teardown. The
guards of the form (buttons disabled while loading, connect offered only when
disconnected) are not imposed: every handler may run in every mounted state. -/
inductive Event where
  | selectPort (port : String)
  | pickBaudRate (rate : ℚ)
  | connect (resp : ApiResult)
  | disconnect (resp : ApiResult)
  | changeBaudRate (newBaudRate : ℚ) (resp : ApiResult)
  | message (socket : Nat) (parsed : Option JsVal)
  | effect
  | teardown

/-- One event applied to the state. Nothing happens once the component is
unmounted, and a message is delivered only on a socket that is open. -/
def step (s : State) (e : Event) : State :=
  if !s.mounted then s
  else
    match e with
    | Event.selectPort port => { s with selectedPort := port }
    | Event.pickBaudRate rate => { s with baudRate := rate }
    | Event.connect resp => (handleConnect s resp).state
    | Event.disconnect resp => (handleDisconnect s resp).state
    | Event.changeBaudRate r resp => (handleBaudRateChange s r resp).state
    | Event.message i parsed =>
      if s.sockets.get? i = some true then onmessage s parsed else s
    | Event.effect => flushEffect s
    | Event.teardown => unmount s

/-- A run of events from a state. -/
def run (s : State) (events : List Event) : State :=
  events.foldl step s

/-- A state the component can be in: the result of some run of events from
the initial state. -/
def Reachable (s : State) : Prop :=
  ∃ events : List Event, run initialState events = s

/-- Whether a request resolved (rather than being rejected). -/
def ApiResult.isOk (resp : ApiResult) : Bool :=
  match resp with
  | ApiResult.ok _ => true
  | ApiResult.fail _ => false

/-- An event that is a successful connect in state `s`: `handleConnect` sends
its request and the request resolves. -/
def connectSucceeds (s : State) (e : Event) : Bool :=
  match e with
  | Event.connect resp => resp.isOk && !(handleConnect s resp).requests.isEmpty
  | _ => false

/-- An event that is a successful rate change: the request resolves. -/
def rateChangeSucceeds (e : Event) : Bool :=
  match e with
  | Event.changeBaudRate _ resp => resp.isOk
  | _ => false

/-- No connect succeeds along the run of `events` from `s`. -/
def noConnectSucceeds (s : State) (events : List Event) : Bool :=
  match events with
  | [] => true
  | e :: rest => !connectSucceeds s e && noConnectSucceeds (step s e) rest

/-- No rate change succeeds among `events`. -/
def noRateChangeSucceeds (events : List Event) : Bool :=
  events.all (fun e => !rateChangeSucceeds e)

/-- A parsed message whose tag is `"status"`. -/
def isStatusMessage (message : JsVal) : Bool :=
  match message.prop "type" with
  | some ty => ty.strictEqStr "status"
  | none => false

/-- The prediction a payload carries: `payload.prediction` when reading it
does not throw and it is truthy. -/
def predictionOf (payload : JsVal) : Option JsVal :=
  match payload.prop "prediction" with
  | some p => if p.truthy then some p else none
  | none => none

/-- A prediction object with the given `congestion_level`. -/
def congestion (level : ℚ) : JsVal :=
  JsVal.obj [("congestion_level", JsVal.num level)]

/-- A message `{ type: "data", payload }`. -/
def dataMessage (payload : JsVal) : JsVal :=
  JsVal.obj [("type", JsVal.str "data"), ("payload", payload)]

/-! ## Statistics -/

/-- The channel invariant: while the component is mounted and the channel
effect last ran with `isConnected` true, the sockets are some closed ones
followed by one open socket that `wsRef.current` points to; otherwise every
socket is closed. -/
def ChannelInv (s : State) : Prop :=
  (s.effectDeps = true ∧ s.mounted = true ∧
    ∃ n, s.sockets = List.replicate n false ++ [true] ∧ s.wsRef = some n) ∨
  ((s.effectDeps = false ∨ s.mounted = false) ∧
    ∃ n, s.sockets = List.replicate n false)

/-- An idle session: not connected, the channel effect in step with that, and
every socket closed. -/
def Idle (s : State) : Prop :=
  s.isConnected = false ∧ s.effectDeps = false ∧ ∃ n, s.sockets = List.replicate n false

/-- Two states with the same channel cells. -/
def SameChannel (s t : State) : Prop :=
  t.sockets = s.sockets ∧ t.wsRef = s.wsRef ∧ t.effectDeps = s.effectDeps ∧
  t.mounted = s.mounted

/-- A session that connects on port `COM3`, has its channel opened by the
effect, and then disconnects successfully; the channel effect has not yet run
for the disconnect. -/
def disconnectedBeforeEffect : List Event :=
  [Event.selectPort "COM3", Event.connect (ApiResult.ok JsVal.null), Event.effect,
   Event.disconnect (ApiResult.ok JsVal.null)]

/-! ## Sliding window lemmas -/

theorem sliceLast_length {α : Type} (k : Nat) (xs : List α) :
    (sliceLast k xs).length = min k xs.length := by
  unfold sliceLast
  rw [List.length_drop]
  omega

theorem sliceLast_append_sliceLast {α : Type} (k : Nat) (xs ys : List α) :
    sliceLast k (sliceLast k xs ++ ys) = sliceLast k (xs ++ ys) := by
  unfold sliceLast
  by_cases h : xs.length ≤ k
  · have h0 : xs.length - k = 0 := by omega
    simp [h0]
  · have hk : k < xs.length := by omega
    have hlen : (List.drop (xs.length - k) xs).length = k := by
      rw [List.length_drop]; omega
    rw [List.length_append, hlen, List.length_append]
    have e1 : k + ys.length - k = ys.length := by omega
    have e2 : xs.length + ys.length - k = (xs.length - k) + ys.length := by omega
    rw [e1, e2, ← List.drop_drop]
    rw [List.drop_append_of_le_length (by omega : xs.length - k ≤ xs.length)]

theorem onmessage_data_of_isDataMessage (s : State) (m : JsVal)
    (h : isDataMessage m = true) :
    (onmessage s (some m)).data = sliceLast 100 (s.data ++ [payloadOf m]) := by
  unfold isDataMessage at h
  unfold onmessage payloadOf
  cases hty : m.prop "type" with
  | none => simp [hty] at h
  | some ty =>
    simp only [hty] at h ⊢
    simp only [h, if_true]
    cases hp : m.prop "payload" with
    | none => cases m <;> simp [JsVal.prop] at hty hp
    | some payload =>
      simp only [Option.getD_some]
      split
      · rfl
      · split <;> rfl

theorem ingest_data (s : State) (messages : List JsVal)
    (hlen : s.data.length ≤ 100)
    (h : ∀ m ∈ messages, isDataMessage m = true) :
    (ingest s messages).data = sliceLast 100 (s.data ++ messages.map payloadOf) := by
  induction messages generalizing s with
  | nil =>
    have h0 : s.data.length - 100 = 0 := by omega
    simp [ingest, sliceLast, h0]
  | cons m ms ih =>
    have hm : isDataMessage m = true := h m (List.mem_cons_self m ms)
    have hms : ∀ x ∈ ms, isDataMessage x = true :=
      fun x hx => h x (List.mem_cons_of_mem m hx)
    have step : ingest s (m :: ms) = ingest (onmessage s (some m)) ms := rfl
    have hd := onmessage_data_of_isDataMessage s m hm
    have hlen1 : (onmessage s (some m)).data.length ≤ 100 := by
      rw [hd, sliceLast_length]; omega
    rw [step, ih _ hlen1 hms, hd, sliceLast_append_sliceLast]
    simp

/-! ## C1: the sliding window -/

/-- C1. From an empty window, handling `n` data messages leaves a window of
length `min 100 n` holding the payloads of the last `min 100 n` messages in
arrival order; after any append the window has at most 100 entries, and an
append to a window of 100 drops exactly the oldest entry. -/
theorem window_after_ingest (s : State) (messages : List JsVal)
    (hempty : s.data = [])
    (hdata : ∀ m ∈ messages, isDataMessage m = true) :
    (ingest s messages).data.length = min 100 messages.length ∧
    (ingest s messages).data =
      (messages.map payloadOf).drop (messages.length - min 100 messages.length) ∧
    (∀ (t : State) (m : JsVal), isDataMessage m = true →
      (onmessage t (some m)).data.length ≤ 100) ∧
    (∀ (t : State) (m : JsVal), isDataMessage m = true → t.data.length = 100 →
      (onmessage t (some m)).data = t.data.tail ++ [payloadOf m]) := by
  have hd := ingest_data s messages (by simp [hempty]) hdata
  rw [hempty, List.nil_append] at hd
  refine ⟨?_, ?_, ?_, ?_⟩
  · rw [hd, sliceLast_length, List.length_map]
  · rw [hd]
    unfold sliceLast
    rw [List.length_map]
    congr 1
    omega
  · intro t m hm
    rw [onmessage_data_of_isDataMessage t m hm, sliceLast_length]
    omega
  · intro t m hm hlen
    rw [onmessage_data_of_isDataMessage t m hm]
    unfold sliceLast
    rw [List.length_append, hlen]
    cases hdt : t.data with
    | nil => rw [hdt] at hlen; simp at hlen
    | cons x xs => simp

/-- C1 witness: two data messages handled from the initial state. -/
theorem window_after_ingest_witness :
    (ingest initialState [dataMessage (JsVal.num 1), dataMessage (JsVal.num 2)]).data
      = [JsVal.num 1, JsVal.num 2] := by
  have h := (window_after_ingest initialState
    [dataMessage (JsVal.num 1), dataMessage (JsVal.num 2)] rfl (by decide)).2.1
  rw [h]
  rfl

/-! ## C4, C5: validation and request failures -/

/-- C4. With an empty selected port `handleConnect` sends no request and ends
with the error `'Please select a port'` and `loading` false; every other
cell (connected, window, status, baud rate, prediction, sockets) is as
before. -/
theorem handleConnect_empty_port (s : State) (resp : ApiResult)
    (hport : s.selectedPort = "") :
    (handleConnect s resp).requests = [] ∧
    (handleConnect s resp).state =
      { s with error := JsVal.str "Please select a port", loading := false } := by
  unfold handleConnect
  simp [hport, JsVal.truthy]

/-- C4 witness: connect in the initial state, where no port is selected. -/
theorem handleConnect_empty_port_witness :
    (handleConnect initialState (ApiResult.ok JsVal.null)).requests = [] ∧
    (handleConnect initialState (ApiResult.ok JsVal.null)).state =
      { initialState with error := JsVal.str "Please select a port", loading := false } :=
  handleConnect_empty_port initialState (ApiResult.ok JsVal.null) rfl

/-- C5. A connect, disconnect or rate change whose request is rejected
changes only the error message and the loading flag: window, status,
connected and baud rate are as before the attempt. -/
theorem failed_request_keeps_state (s : State) (detail : JsVal) (newBaudRate : ℚ) :
    (∃ msg, (handleConnect s (ApiResult.fail detail)).state =
      { s with error := msg, loading := false }) ∧
    (handleDisconnect s (ApiResult.fail detail)).state =
      { s with error := JsVal.str "Failed to disconnect", loading := false } ∧
    (handleBaudRateChange s newBaudRate (ApiResult.fail detail)).state =
      { s with error := JsVal.str "Failed to change baud rate", loading := false } ∧
    (s.isConnected = false →
      (handleConnect s (ApiResult.fail detail)).state.isConnected = false) ∧
    (s.isConnected = true →
      (handleDisconnect s (ApiResult.fail detail)).state.isConnected = true ∧
      (handleDisconnect s (ApiResult.fail detail)).state.data = s.data ∧
      (handleDisconnect s (ApiResult.fail detail)).state.status = s.status) ∧
    (handleBaudRateChange s newBaudRate (ApiResult.fail detail)).state.baudRate
      = s.baudRate := by
  refine ⟨?_, rfl, rfl, ?_, ?_, rfl⟩
  · unfold handleConnect
    by_cases hp : (JsVal.str s.selectedPort).truthy = true
    · exact ⟨_, by simp [hp]; rfl⟩
    · exact ⟨_, by simp [hp]; rfl⟩
  · intro h
    unfold handleConnect
    by_cases hp : (JsVal.str s.selectedPort).truthy = true <;> simp [hp, h]
  · intro h
    exact ⟨h, rfl, rfl⟩

/-! ## C6: a successful rate change -/

theorem lookup_setField_self (fields : List (String × JsVal)) (k : String) (v : JsVal) :
    (setField fields k v).lookup k = some v := by
  unfold setField
  induction fields with
  | nil => simp [List.lookup]
  | cons p ps ih =>
    obtain ⟨a, b⟩ := p
    by_cases hak : a = k
    · subst hak
      simp [List.lookup]
    · have hka : (k == a) = false := by simpa using fun h => hak h.symm
      have hak' : (a == k) = false := by simpa using hak
      simp only [List.any_cons, hak', Bool.false_or, List.map_cons, List.cons_append] at ih ⊢
      by_cases hany : (ps.any fun p => p.1 == k) = true
      · simp only [hany, if_true] at ih ⊢
        simpa [List.lookup, hka] using ih
      · simp only [hany] at ih ⊢
        simpa [List.lookup, hka] using ih

theorem lookup_setField_other (fields : List (String × JsVal)) (k k' : String) (v : JsVal)
    (hk : k' ≠ k) :
    (setField fields k v).lookup k' = fields.lookup k' := by
  unfold setField
  induction fields with
  | nil =>
    have : (k' == k) = false := by simpa using hk
    simp [List.lookup, this]
  | cons p ps ih =>
    obtain ⟨a, b⟩ := p
    by_cases hak : a = k
    · subst hak
      have hka : (k' == a) = false := by simpa using hk
      simp only [List.any_cons, beq_self_eq_true, Bool.true_or, if_true, List.map_cons,
        List.lookup, hka]
      by_cases hany : (ps.any fun p => p.1 == a) = true
      · simpa [hany] using ih
      · have hmap : ps.map (fun p => if (p.1 == a) = true then (a, v) else p) = ps := by
          have hall : ∀ p ∈ ps, ¬ (p.1 == a) = true := by
            intro p hp hpa
            exact hany (List.any_eq_true.mpr ⟨p, hp, hpa⟩)
          calc ps.map (fun p => if (p.1 == a) = true then (a, v) else p)
              = ps.map id := List.map_congr_left (fun p hp => by simp [hall p hp])
            _ = ps := List.map_id ps
        rw [hmap]
    · have hak' : (a == k) = false := by simpa using hak
      simp only [List.any_cons, hak', Bool.false_or, List.map_cons, List.cons_append] at ih ⊢
      by_cases hany : (ps.any fun p => p.1 == k) = true
      · simp only [hany, if_true] at ih ⊢
        by_cases hka : (k' == a) = true
        · simp [List.lookup, hka]
        · simpa [List.lookup, hka] using ih
      · simp only [hany] at ih ⊢
        by_cases hka : (k' == a) = true
        · simp [List.lookup, hka]
        · simpa [List.lookup, hka] using ih

/-- C6. A successful rate change to `r` on a status object gives a status
whose `baud_rate` is `r` and whose every other field reads as before, sets
the active baud rate to `r`, and leaves window, connected and prediction as
they were. -/
theorem rate_change_merges_baud_rate (s : State) (fields : List (String × JsVal))
    (r : ℚ) (body : JsVal) (hstatus : s.status = JsVal.obj fields) :
    (handleBaudRateChange s r (ApiResult.ok body)).state.status.prop "baud_rate"
      = some (JsVal.num r) ∧
    (∀ k : String, k ≠ "baud_rate" →
      (handleBaudRateChange s r (ApiResult.ok body)).state.status.prop k
        = s.status.prop k) ∧
    (handleBaudRateChange s r (ApiResult.ok body)).state.baudRate = r ∧
    (handleBaudRateChange s r (ApiResult.ok body)).state.data = s.data ∧
    (handleBaudRateChange s r (ApiResult.ok body)).state.isConnected = s.isConnected ∧
    (handleBaudRateChange s r (ApiResult.ok body)).state.prediction = s.prediction := by
  refine ⟨?_, ?_, rfl, rfl, rfl, rfl⟩
  · simp [handleBaudRateChange, hstatus, JsVal.ownFields, JsVal.prop, lookup_setField_self]
  · intro k hk
    simp [handleBaudRateChange, hstatus, JsVal.ownFields, JsVal.prop,
      lookup_setField_other _ _ _ _ hk]

/-- C6 witness: a rate change to 9600 on a status with a port and a rate. -/
theorem rate_change_merges_baud_rate_witness :
    (handleBaudRateChange
        { initialState with
          status := JsVal.obj [("port", JsVal.str "COM3"), ("baud_rate", JsVal.num 115200)] }
        9600 (ApiResult.ok JsVal.null)).state.status
      = JsVal.obj [("port", JsVal.str "COM3"), ("baud_rate", JsVal.num 9600)] ∧
    (handleBaudRateChange
        { initialState with
          status := JsVal.obj [("port", JsVal.str "COM3"), ("baud_rate", JsVal.num 115200)] }
        9600 (ApiResult.ok JsVal.null)).state.status.prop "baud_rate"
      = some (JsVal.num 9600) :=
  ⟨rfl,
   (rate_change_merges_baud_rate
      { initialState with
        status := JsVal.obj [("port", JsVal.str "COM3"), ("baud_rate", JsVal.num 115200)] }
      [("port", JsVal.str "COM3"), ("baud_rate", JsVal.num 115200)]
      9600 JsVal.null rfl).1⟩

/-! ## C7: malformed realtime messages -/

/-- C7 as stated fails: a message tagged `"data"` that has no payload is
handled as a data message, and `undefined` is appended to the window. -/
theorem malformed_data_message_is_appended :
    isDataMessage (JsVal.obj [("type", JsVal.str "data")]) = true ∧
    (JsVal.obj [("type", JsVal.str "data")]).prop "payload" = some JsVal.undefined ∧
    initialState.data = [] ∧
    (onmessage initialState (some (JsVal.obj [("type", JsVal.str "data")]))).data
      = [JsVal.undefined] := by
  exact ⟨by decide, rfl, rfl, rfl⟩

/-- C7, amended. A message that is not valid JSON, or whose type tag is
neither `"data"` nor `"status"`, leaves the whole state as it was: window,
status and prediction are unchanged and no socket is closed. -/
theorem unrecognised_message_is_dropped (s : State) (parsed : Option JsVal)
    (hbad : parsed = none ∨
      ∃ m, parsed = some m ∧ isDataMessage m = false ∧ isStatusMessage m = false) :
    onmessage s parsed = s := by
  rcases hbad with h | ⟨m, h, hd, hs⟩
  · subst h; rfl
  · subst h
    unfold isDataMessage at hd
    unfold isStatusMessage at hs
    unfold onmessage
    cases hty : m.prop "type" with
    | none => simp only [hty]
    | some ty =>
      simp only [hty] at hd hs ⊢
      simp [hd, hs]

/-- C7 witness: a message with the unknown tag `"ping"`. -/
theorem unrecognised_message_is_dropped_witness :
    onmessage initialState
        (some (JsVal.obj [("type", JsVal.str "ping"), ("payload", JsVal.num 1)]))
      = initialState :=
  unrecognised_message_is_dropped initialState
    (some (JsVal.obj [("type", JsVal.str "ping"), ("payload", JsVal.num 1)]))
    (Or.inr ⟨_, rfl, by decide, by decide⟩)

/-! ## C9: the prediction snapshot -/

theorem ingest_append_one (s : State) (messages : List JsVal) (m : JsVal) :
    ingest s (messages ++ [m]) = onmessage (ingest s messages) (some m) := by
  unfold ingest
  rw [List.foldl_append]
  rfl

/-- C9 as stated fails: after a Reading with a prediction and then a Reading
without one, the snapshot is still the earlier Reading's prediction, and it
changes with that earlier Reading although the latest Reading is the same. -/
theorem prediction_survives_later_reading :
    (payloadOf (dataMessage (JsVal.obj [("gas", JsVal.num 5)]))).prop "prediction"
      = some JsVal.undefined ∧
    (ingest initialState
      [dataMessage (JsVal.obj [("prediction", congestion 80)]),
       dataMessage (JsVal.obj [("gas", JsVal.num 5)])]).prediction
      = congestion 80 ∧
    (ingest initialState
      [dataMessage (JsVal.obj [("prediction", congestion 20)]),
       dataMessage (JsVal.obj [("gas", JsVal.num 5)])]).prediction
      = congestion 20 := by
  exact ⟨rfl, rfl, rfl⟩

/-- C9, amended. After a data message is handled, the snapshot is the
prediction of that latest Reading whenever the Reading carries one (whatever
the earlier Readings were), and otherwise it is what it was before that
Reading. -/
theorem prediction_latest_wins (s : State) (earlier : List JsVal) (m : JsVal)
    (hm : isDataMessage m = true) :
    (∀ p, predictionOf (payloadOf m) = some p →
      (ingest s (earlier ++ [m])).prediction = p) ∧
    (predictionOf (payloadOf m) = none →
      (ingest s (earlier ++ [m])).prediction = (ingest s earlier).prediction) := by
  rw [ingest_append_one]
  generalize ingest s earlier = t
  unfold isDataMessage at hm
  unfold predictionOf payloadOf onmessage
  cases hty : m.prop "type" with
  | none => simp [hty] at hm
  | some ty =>
    simp only [hty] at hm ⊢
    simp only [hm, if_true]
    cases hp : m.prop "payload" with
    | none => cases m <;> simp [JsVal.prop] at hty hp
    | some payload =>
      simp only [Option.getD_some]
      cases hpr : payload.prop "prediction" with
      | none => simp
      | some p =>
        by_cases ht : p.truthy = true
        · simp [ht]
        · simp [ht]

/-- C9 witness: a Reading with a prediction after one with another. -/
theorem prediction_latest_wins_witness :
    (ingest initialState
      ([dataMessage (JsVal.obj [("prediction", congestion 20)])] ++
       [dataMessage (JsVal.obj [("prediction", congestion 80)])])).prediction
      = congestion 80 :=
  (prediction_latest_wins initialState
    [dataMessage (JsVal.obj [("prediction", congestion 20)])]
    (dataMessage (JsVal.obj [("prediction", congestion 80)])) (by decide)).1
    (congestion 80) rfl

/-! ## C2: statistics -/

theorem handleConnect_sameChannel (s : State) (resp : ApiResult) :
    SameChannel s (handleConnect s resp).state := by
  unfold handleConnect SameChannel
  by_cases hp : (JsVal.str s.selectedPort).truthy = true
  · cases resp <;> simp [hp]
  · simp [hp]

theorem handleDisconnect_sameChannel (s : State) (resp : ApiResult) :
    SameChannel s (handleDisconnect s resp).state := by
  unfold handleDisconnect SameChannel
  cases resp <;> simp

theorem handleBaudRateChange_sameChannel (s : State) (r : ℚ) (resp : ApiResult) :
    SameChannel s (handleBaudRateChange s r resp).state := by
  unfold handleBaudRateChange SameChannel
  cases resp <;> simp

theorem onmessage_sameChannel (s : State) (parsed : Option JsVal) :
    SameChannel s (onmessage s parsed) ∧ (onmessage s parsed).isConnected = s.isConnected := by
  unfold onmessage SameChannel
  cases parsed with
  | none => simp
  | some m =>
    simp only
    cases m.prop "type" with
    | none => simp
    | some ty =>
      simp only
      by_cases hd : ty.strictEqStr "data" = true
      · simp only [hd, if_true]
        cases m.prop "payload" with
        | none => simp
        | some payload =>
          simp only
          cases payload.prop "prediction" with
          | none => simp
          | some p => by_cases ht : p.truthy = true <;> simp [ht]
      · simp only [hd]
        by_cases hs : ty.strictEqStr "status" = true
        · simp only [hs, if_true]
          cases m.prop "payload" <;> simp
        · simp [hs]

theorem ChannelInv_of_sameChannel (s t : State) (h : SameChannel s t)
    (hinv : ChannelInv s) : ChannelInv t := by
  obtain ⟨h1, h2, h3, h4⟩ := h
  unfold ChannelInv at hinv ⊢
  rw [h1, h2, h3, h4]
  exact hinv

theorem channelCleanup_frame (s : State) :
    (channelCleanup s).isConnected = s.isConnected ∧
    (channelCleanup s).wsRef = s.wsRef ∧
    (channelCleanup s).effectDeps = s.effectDeps ∧
    (channelCleanup s).mounted = s.mounted ∧
    (channelCleanup s).data = s.data ∧
    (channelCleanup s).status = s.status := by
  unfold channelCleanup
  split <;> simp

theorem channelCleanup_closed (s : State) (hinv : ChannelInv s) :
    ∃ n, (channelCleanup s).sockets = List.replicate n false := by
  unfold channelCleanup
  rcases hinv with ⟨_, _, n, hn, hw⟩ | ⟨_, n, hn⟩
  · refine ⟨n + 1, ?_⟩
    rw [hw]
    simp only [hn]
    rw [List.set_append_right _ _ (by simp), List.replicate_succ']
    simp
  · refine ⟨n, ?_⟩
    cases s.wsRef with
    | none => exact hn
    | some i => simp [hn]

theorem flushEffect_inv (s : State) (hm : s.mounted = true) (hinv : ChannelInv s) :
    ChannelInv (flushEffect s) := by
  unfold flushEffect
  by_cases hc : s.isConnected = s.effectDeps
  · simpa [hc] using hinv
  · obtain ⟨n, hn⟩ := channelCleanup_closed s hinv
    obtain ⟨f1, f2, f3, f4, _, _⟩ := channelCleanup_frame s
    simp only [hc, if_false]
    unfold channelEffect connectWebSocket
    rw [f1]
    cases hcon : s.isConnected with
    | true =>
      left
      simp [hn, f4, hm]
    | false =>
      right
      simp [hn]

theorem unmount_inv (s : State) (hinv : ChannelInv s) : ChannelInv (unmount s) := by
  obtain ⟨n, hn⟩ := channelCleanup_closed s hinv
  right
  exact ⟨Or.inr rfl, n, hn⟩

theorem step_inv (s : State) (e : Event) (hinv : ChannelInv s) : ChannelInv (step s e) := by
  unfold step
  by_cases hm : s.mounted = true
  · rw [if_neg (by simp [hm])]
    cases e with
    | selectPort port => exact ChannelInv_of_sameChannel s _ ⟨rfl, rfl, rfl, rfl⟩ hinv
    | pickBaudRate rate => exact ChannelInv_of_sameChannel s _ ⟨rfl, rfl, rfl, rfl⟩ hinv
    | connect resp => exact ChannelInv_of_sameChannel s _ (handleConnect_sameChannel s resp) hinv
    | disconnect resp =>
      exact ChannelInv_of_sameChannel s _ (handleDisconnect_sameChannel s resp) hinv
    | changeBaudRate r resp =>
      exact ChannelInv_of_sameChannel s _ (handleBaudRateChange_sameChannel s r resp) hinv
    | message i parsed =>
      simp only
      split
      · exact ChannelInv_of_sameChannel s _ (onmessage_sameChannel s parsed).1 hinv
      · exact hinv
    | effect => exact flushEffect_inv s hm hinv
    | teardown => exact unmount_inv s hinv
  · simp only [Bool.not_eq_true] at hm
    simpa [hm] using hinv

theorem run_inv (s : State) (events : List Event) (hinv : ChannelInv s) :
    ChannelInv (run s events) := by
  induction events generalizing s with
  | nil => exact hinv
  | cons e es ih => exact ih (step s e) (step_inv s e hinv)

theorem initialState_inv : ChannelInv initialState :=
  Or.inr ⟨Or.inl rfl, 0, rfl⟩

theorem reachable_inv (s : State) (h : Reachable s) : ChannelInv s := by
  obtain ⟨events, rfl⟩ := h
  exact run_inv initialState events initialState_inv

theorem openChannels_of_inv (s : State) (hinv : ChannelInv s) :
    (s.effectDeps = true ∧ s.mounted = true ∧ openChannels s = 1) ∨
    ((s.effectDeps = false ∨ s.mounted = false) ∧ openChannels s = 0) := by
  unfold openChannels
  rcases hinv with ⟨h1, h2, n, hn, _⟩ | ⟨h1, n, hn⟩
  · left
    refine ⟨h1, h2, ?_⟩
    rw [hn]
    simp [List.count_replicate]
  · right
    refine ⟨h1, ?_⟩
    rw [hn]
    simp [List.count_replicate]

theorem flushEffect_frame (s : State) :
    (flushEffect s).mounted = s.mounted ∧
    (flushEffect s).effectDeps = s.isConnected ∧
    (flushEffect s).isConnected = s.isConnected ∧
    (flushEffect s).data = s.data ∧
    (flushEffect s).status = s.status := by
  obtain ⟨f1, _, _, f4, f5, f6⟩ := channelCleanup_frame s
  unfold flushEffect
  by_cases hc : s.isConnected = s.effectDeps
  · simp [hc]
  · simp only [hc, if_false]
    unfold channelEffect connectWebSocket
    split <;> simp [f1, f4, f5, f6]

theorem step_of_mounted_connect (s : State) (resp : ApiResult) (hm : s.mounted = true) :
    step s (Event.connect resp) = (handleConnect s resp).state := by
  unfold step
  rw [if_neg (by simp [hm])]

theorem step_of_mounted_effect (s : State) (hm : s.mounted = true) :
    step s Event.effect = flushEffect s := by
  unfold step
  rw [if_neg (by simp [hm])]

theorem handleConnect_ok_connected (s : State) (body : JsVal) (hport : s.selectedPort ≠ "") :
    (handleConnect s (ApiResult.ok body)).state.isConnected = true := by
  unfold handleConnect
  simp [JsVal.truthy, hport]

/-! ## C8: one realtime channel -/

/-- C8. In every reachable state at most one socket is open; a successful
connect followed by the channel effect leaves exactly one open; a further
successful connect while a channel is open creates no socket; the effect
opens a socket only from a state in which all are closed, so every socket
that existed before a new one is created is closed. -/
theorem at_most_one_channel :
    (∀ s : State, Reachable s → openChannels s ≤ 1) ∧
    (∀ (s : State) (body : JsVal), Reachable s → s.mounted = true → s.selectedPort ≠ "" →
      openChannels (step (step s (Event.connect (ApiResult.ok body))) Event.effect) = 1) ∧
    (∀ (s : State) (body : JsVal), Reachable s → openChannels s = 1 →
      s.selectedPort ≠ "" →
      (step (step s (Event.connect (ApiResult.ok body))) Event.effect).sockets = s.sockets) ∧
    (∀ s : State, Reachable s → openChannels (channelCleanup s) = 0) ∧
    (∀ (s : State) (e : Event), Reachable s →
      s.sockets.length < (step s e).sockets.length →
      ∀ i, i < s.sockets.length → (step s e).sockets.get? i = some false) := by
  refine ⟨?_, ?_, ?_, ?_, ?_⟩
  · intro s hs
    rcases openChannels_of_inv s (reachable_inv s hs) with ⟨_, _, h⟩ | ⟨_, h⟩ <;> omega
  · intro s body hs hm hport
    have hinv := reachable_inv s hs
    obtain ⟨_, _, _, c4⟩ := handleConnect_sameChannel s (ApiResult.ok body)
    have htm : (handleConnect s (ApiResult.ok body)).state.mounted = true := by rw [c4, hm]
    rw [step_of_mounted_connect s _ hm, step_of_mounted_effect _ htm]
    have hinv2 := flushEffect_inv _ htm
      (ChannelInv_of_sameChannel s _ (handleConnect_sameChannel s (ApiResult.ok body)) hinv)
    obtain ⟨g1, g2, _, _, _⟩ := flushEffect_frame (handleConnect s (ApiResult.ok body)).state
    rw [handleConnect_ok_connected s body hport] at g2
    rcases openChannels_of_inv _ hinv2 with ⟨_, _, h⟩ | ⟨h | h, _⟩
    · exact h
    · rw [g2] at h; cases h
    · rw [g1, htm] at h; cases h
  · intro s body hs hopen hport
    have hinv := reachable_inv s hs
    rcases openChannels_of_inv s hinv with ⟨hdeps, hm, _⟩ | ⟨_, h0⟩
    · obtain ⟨_, _, c3, c4⟩ := handleConnect_sameChannel s (ApiResult.ok body)
      have htm : (handleConnect s (ApiResult.ok body)).state.mounted = true := by rw [c4, hm]
      rw [step_of_mounted_connect s _ hm, step_of_mounted_effect _ htm]
      have hcon := handleConnect_ok_connected s body hport
      have hsame : (handleConnect s (ApiResult.ok body)).state.isConnected
          = (handleConnect s (ApiResult.ok body)).state.effectDeps := by
        rw [hcon, c3, hdeps]
      unfold flushEffect
      rw [if_pos hsame]
      exact (handleConnect_sameChannel s (ApiResult.ok body)).1
    · omega
  · intro s hs
    obtain ⟨n, hn⟩ := channelCleanup_closed s (reachable_inv s hs)
    unfold openChannels
    rw [hn]
    simp [List.count_replicate]
  · intro s e hs hlen i hi
    have hinv := step_inv s e (reachable_inv s hs)
    rcases hinv with ⟨_, _, n, hn, _⟩ | ⟨_, n, hn⟩
    · rw [hn] at hlen ⊢
      simp only [List.length_append, List.length_replicate, List.length_singleton] at hlen
      have hin : i < n := by omega
      rw [List.get?_eq_getElem?, List.getElem?_append_left (by simpa using hin)]
      simp [hin]
    · rw [hn] at hlen ⊢
      simp only [List.length_replicate] at hlen
      have hin : i < n := by omega
      rw [List.get?_eq_getElem?]
      simp [hin]

/-- C8 witness: after selecting a port, a successful connect and the channel
effect, one socket is open, and connecting again keeps the sockets as they
are. -/
theorem at_most_one_channel_witness :
    openChannels (run initialState
      [Event.selectPort "COM3", Event.connect (ApiResult.ok JsVal.null), Event.effect]) ≤ 1 ∧
    (run initialState
      [Event.selectPort "COM3", Event.connect (ApiResult.ok JsVal.null), Event.effect,
       Event.connect (ApiResult.ok JsVal.null), Event.effect]).sockets = [true] :=
  ⟨at_most_one_channel.1 _ ⟨_, rfl⟩, rfl⟩

/-! ## Idle sessions -/

theorem handleConnect_of_not_succeeds (s : State) (resp : ApiResult)
    (hc : connectSucceeds s (Event.connect resp) = false) :
    ∃ msg, (handleConnect s resp).state = { s with error := msg, loading := false } := by
  unfold connectSucceeds at hc
  unfold handleConnect at hc ⊢
  by_cases hp : (JsVal.str s.selectedPort).truthy = true
  · cases resp with
    | ok body => simp [hp, ApiResult.isOk] at hc
    | fail detail => exact ⟨_, by simp [hp]; rfl⟩
  · exact ⟨_, by simp [hp]; rfl⟩

theorem flushEffect_idle (t : State) (hinv : ChannelInv t) (hc : t.isConnected = false) :
    Idle (flushEffect t) := by
  obtain ⟨_, g2, g3, _, _⟩ := flushEffect_frame t
  refine ⟨by rw [g3, hc], by rw [g2, hc], ?_⟩
  unfold flushEffect
  by_cases hd : t.isConnected = t.effectDeps
  · rw [if_pos hd]
    rcases hinv with ⟨h1, _, _⟩ | ⟨_, n, hn⟩
    · rw [hc, h1] at hd; cases hd
    · exact ⟨n, hn⟩
  · rw [if_neg hd]
    obtain ⟨n, hn⟩ := channelCleanup_closed t hinv
    obtain ⟨f1, _⟩ := channelCleanup_frame t
    unfold channelEffect
    rw [f1, hc]
    exact ⟨n, by simpa using hn⟩

theorem idle_step (s : State) (e : Event) (h : Idle s)
    (hc : connectSucceeds s e = false) :
    Idle (step s e) ∧
    (s.data = [] → (step s e).data = []) ∧
    (s.status = JsVal.null → rateChangeSucceeds e = false →
      (step s e).status = JsVal.null) := by
  obtain ⟨h1, h2, n, hn⟩ := h
  unfold step
  by_cases hm : s.mounted = true
  · rw [if_neg (by simp [hm])]
    cases e with
    | selectPort port => exact ⟨⟨h1, h2, n, hn⟩, fun hd => hd, fun hs _ => hs⟩
    | pickBaudRate rate => exact ⟨⟨h1, h2, n, hn⟩, fun hd => hd, fun hs _ => hs⟩
    | connect resp =>
      obtain ⟨msg, hmsg⟩ := handleConnect_of_not_succeeds s resp hc
      simp only [hmsg]
      exact ⟨⟨h1, h2, n, hn⟩, fun hd => hd, fun hs _ => hs⟩
    | disconnect resp =>
      cases resp with
      | ok body => exact ⟨⟨rfl, h2, n, hn⟩, fun _ => rfl, fun _ _ => rfl⟩
      | fail detail => exact ⟨⟨h1, h2, n, hn⟩, fun hd => hd, fun hs _ => hs⟩
    | changeBaudRate r resp =>
      cases resp with
      | ok body =>
        refine ⟨⟨h1, h2, n, hn⟩, fun hd => hd, fun _ hr => ?_⟩
        simp [rateChangeSucceeds, ApiResult.isOk] at hr
      | fail detail => exact ⟨⟨h1, h2, n, hn⟩, fun hd => hd, fun hs _ => hs⟩
    | message i parsed =>
      have hclosed : ¬ s.sockets.get? i = some true := by
        rw [hn, List.get?_eq_getElem?, List.getElem?_replicate]
        split <;> simp
      simp only [hclosed, if_false]
      exact ⟨⟨h1, h2, n, hn⟩, fun hd => hd, fun hs _ => hs⟩
    | effect =>
      have hsame : s.isConnected = s.effectDeps := by rw [h1, h2]
      simp only [flushEffect, hsame, if_true]
      exact ⟨⟨h1, h2, n, hn⟩, fun hd => hd, fun hs _ => hs⟩
    | teardown =>
      obtain ⟨f1, _, f3, _, f5, f6⟩ := channelCleanup_frame s
      have hclosed : ∃ k, (channelCleanup s).sockets = List.replicate k false :=
        channelCleanup_closed s (Or.inr ⟨Or.inl h2, n, hn⟩)
      refine ⟨⟨?_, ?_, ?_⟩, fun hd => ?_, fun hs _ => ?_⟩
      · exact f1.trans h1
      · exact f3.trans h2
      · exact hclosed
      · exact f5.trans hd
      · exact f6.trans hs
  · simp only [Bool.not_eq_true] at hm
    rw [if_pos (by simp [hm])]
    exact ⟨⟨h1, h2, n, hn⟩, fun hd => hd, fun hs _ => hs⟩

theorem idle_run (s : State) (events : List Event) (h : Idle s)
    (hc : noConnectSucceeds s events = true) :
    Idle (run s events) ∧
    (s.data = [] → (run s events).data = []) ∧
    (s.status = JsVal.null → noRateChangeSucceeds events = true →
      (run s events).status = JsVal.null) := by
  induction events generalizing s with
  | nil => exact ⟨h, fun hd => hd, fun hs _ => hs⟩
  | cons e es ih =>
    unfold noConnectSucceeds at hc
    simp only [Bool.and_eq_true, Bool.not_eq_true'] at hc
    obtain ⟨i1, i2, i3⟩ := idle_step s e h hc.1
    obtain ⟨j1, j2, j3⟩ := ih (step s e) i1 hc.2
    refine ⟨j1, fun hd => j2 (i2 hd), fun hs hr => ?_⟩
    unfold noRateChangeSucceeds at hr
    simp only [List.all_cons, Bool.and_eq_true, Bool.not_eq_true'] at hr
    exact j3 (i3 hs hr.1) (by unfold noRateChangeSucceeds; simpa using hr.2)

theorem initialState_idle : Idle initialState :=
  ⟨rfl, rfl, 0, rfl⟩

/-! ## C3: disconnect -/

/-- C3 as stated fails: after a successful disconnect the window is empty,
status is null and connected is false, but the socket is still open until
the channel effect runs, and a data message that arrives on it before any
new connect is appended by the handler. -/
theorem message_after_disconnect_is_appended :
    (run initialState disconnectedBeforeEffect).data = [] ∧
    (run initialState disconnectedBeforeEffect).status = JsVal.null ∧
    (run initialState disconnectedBeforeEffect).isConnected = false ∧
    (run initialState disconnectedBeforeEffect).sockets.get? 0 = some true ∧
    noConnectSucceeds (run initialState disconnectedBeforeEffect)
      [Event.message 0 (some (dataMessage (JsVal.num 1)))] = true ∧
    (run initialState
      (disconnectedBeforeEffect ++
        [Event.message 0 (some (dataMessage (JsVal.num 1)))])).data = [JsVal.num 1] :=
  ⟨rfl, rfl, rfl, rfl, rfl, rfl⟩

/-- C3, amended. A successful disconnect leaves the window empty, status
null and connected false. Once the channel effect has run for it, every
socket is closed and the window stays empty along every run in which no
connect succeeds. A data message that reaches the handler before the effect
has closed the socket is appended: the window is then that one payload. -/
theorem disconnect_clears_session :
    (∀ (s : State) (body : JsVal),
      (handleDisconnect s (ApiResult.ok body)).state.data = [] ∧
      (handleDisconnect s (ApiResult.ok body)).state.status = JsVal.null ∧
      (handleDisconnect s (ApiResult.ok body)).state.isConnected = false) ∧
    (∀ (s : State) (body : JsVal) (events : List Event), Reachable s →
      noConnectSucceeds (flushEffect (handleDisconnect s (ApiResult.ok body)).state) events
        = true →
      openChannels (flushEffect (handleDisconnect s (ApiResult.ok body)).state) = 0 ∧
      (run (flushEffect (handleDisconnect s (ApiResult.ok body)).state) events).data = []) ∧
    (∀ (s : State) (body : JsVal) (m : JsVal), isDataMessage m = true →
      (onmessage (handleDisconnect s (ApiResult.ok body)).state (some m)).data
        = [payloadOf m]) := by
  refine ⟨fun s body => ⟨rfl, rfl, rfl⟩, ?_, ?_⟩
  · intro s body events hs hc
    have hinv : ChannelInv (handleDisconnect s (ApiResult.ok body)).state :=
      ChannelInv_of_sameChannel s _ (handleDisconnect_sameChannel s _) (reachable_inv s hs)
    have hidle := flushEffect_idle _ hinv rfl
    obtain ⟨_, _, _, g4, _⟩ := flushEffect_frame (handleDisconnect s (ApiResult.ok body)).state
    constructor
    · obtain ⟨_, _, n, hn⟩ := hidle
      unfold openChannels
      rw [hn]
      simp [List.count_replicate]
    · exact (idle_run _ events hidle hc).2.1 g4
  · intro s body m hm
    rw [onmessage_data_of_isDataMessage _ m hm]
    rfl

/-- C3 witness: after the disconnect of the sample session and the channel
effect, a message event and a failed connect leave the window empty. -/
theorem disconnect_clears_session_witness :
    (run (flushEffect (handleDisconnect
        (run initialState
          [Event.selectPort "COM3", Event.connect (ApiResult.ok JsVal.null), Event.effect])
        (ApiResult.ok JsVal.null)).state)
      [Event.message 0 (some (dataMessage (JsVal.num 1))),
       Event.connect (ApiResult.fail JsVal.undefined)]).data = [] :=
  (disconnect_clears_session.2.1
    (run initialState
      [Event.selectPort "COM3", Event.connect (ApiResult.ok JsVal.null), Event.effect])
    JsVal.null
    [Event.message 0 (some (dataMessage (JsVal.num 1))),
     Event.connect (ApiResult.fail JsVal.undefined)]
    ⟨_, rfl⟩ rfl).2

/-! ## C10: status before the first connect -/

/-- C10 as stated fails: a rate change that succeeds before any connect has
succeeded makes status the object with the one field `baud_rate`. -/
theorem rate_change_sets_status_before_connect :
    noConnectSucceeds initialState
      [Event.changeBaudRate 9600 (ApiResult.ok JsVal.null)] = true ∧
    (run initialState [Event.changeBaudRate 9600 (ApiResult.ok JsVal.null)]).status
      = JsVal.obj [("baud_rate", JsVal.num 9600)] ∧
    (run initialState [Event.changeBaudRate 9600 (ApiResult.ok JsVal.null)]).status
      ≠ JsVal.null :=
  ⟨rfl, rfl, fun h => by cases h⟩

/-- C10, amended. Along every run from the initial state in which no connect
and no rate change has succeeded, status is null; and every successful
disconnect leaves status null. -/
theorem status_absent_before_connect :
    (∀ events : List Event, noConnectSucceeds initialState events = true →
      noRateChangeSucceeds events = true →
      (run initialState events).status = JsVal.null) ∧
    (∀ (s : State) (body : JsVal),
      (handleDisconnect s (ApiResult.ok body)).state.status = JsVal.null) :=
  ⟨fun events hc hr => (idle_run initialState events initialState_idle hc).2.2 rfl hr,
   fun _ _ => rfl⟩

/-- C10 witness: a failed connect, a failed rate change and a disconnect from
the initial state leave status null. -/
theorem status_absent_before_connect_witness :
    (run initialState
      [Event.selectPort "COM3", Event.connect (ApiResult.fail JsVal.undefined),
       Event.changeBaudRate 9600 (ApiResult.fail JsVal.undefined),
       Event.disconnect (ApiResult.ok JsVal.null)]).status = JsVal.null :=
  status_absent_before_connect.1 _ rfl rfl

end Dashboard
